import Mathlib

/-!
Shallow embedding of the single-button polling FSM implemented in
`src/button_FSM/button_static.c` (header `button_static.h`).

Modelling conventions:
* `uint32_t` tick values are `Nat`; the C unsigned subtraction
  `current_tick - recorded_tick` is `usub32`, i.e. subtraction modulo `2^32`.
* The three function pointers of `button_t` are externalised: the pin sample
  and the current tick are passed to `Button_Update` as arguments, and the
  callback is modelled by an `Option Nat` handle (`none` = `NULL`), so that
  "events computed" and "events delivered" can be distinguished by
  `dispatched`.
* The `configs` and `latches` pointers of the stage manager are
  `Option (List _)` (`none` = `NULL`); the list length models the size of the
  caller-supplied array, and `count` stays a separate field exactly as in C.
  `List.set` and `List.getD` model the array writes and reads of the loops.
* Each C function returning `button_error_t` while mutating `*button` becomes
  a function returning the error code paired with the new record, so that
  "leaves the record unchanged" is expressible.
-/

def BUTTON_DEBOUNCE_TICKS : Nat := 50
def BUTTON_LONG_PRESS_TICKS : Nat := 1000
def BUTTON_HOLD_TICKS : Nat := 50
def BUTTON_SUPER_LONG_PRESS_TICKS : Nat := 5000

/-- `2^32`, the modulus of `uint32_t` arithmetic. -/
def UINT32_MOD : Nat := 4294967296

/-- Unsigned 32-bit subtraction `a - b` (C semantics: modulo `2^32`). -/
def usub32 (a b : Nat) : Nat :=
  (a % UINT32_MOD + UINT32_MOD - b % UINT32_MOD) % UINT32_MOD

inductive button_active_level_t where
  | activeLow
  | activeHigh
deriving DecidableEq, Repr

inductive button_event_t where
  | eventNone
  | eventPressed
  | eventReleased
  | eventLongPressed
  | eventHold
  | eventSuperLongPressed
deriving DecidableEq, Repr

inductive button_state_t where
  | stateIdle
  | stateDebounce
  | statePressed
  | stateLongPressed
deriving DecidableEq, Repr

structure button_stage_config_t where
  threshold : Nat
  event : button_event_t
deriving DecidableEq, Repr

instance : Inhabited button_stage_config_t :=
  ⟨{ threshold := 0, event := .eventNone }⟩

structure button_stage_manager_t where
  configs : Option (List button_stage_config_t)
  latches : Option (List Bool)
  count : Nat
deriving DecidableEq, Repr

structure button_t where
  last_change_tick : Nat
  press_start_tick : Nat
  last_hold_tick : Nat
  gpio_num : Nat
  active_level : button_active_level_t
  last_state : button_state_t
  last_event : button_event_t
  is_long_pressed_triggered : Bool
  context : Option Nat
  callback : Option Nat
  stages : button_stage_manager_t
deriving DecidableEq, Repr

inductive button_error_t where
  | BUTTON_OK
  | BUTTON_ERR_INVALID_ARG
  | BUTTON_ERR_HW_FAIL
  | BUTTON_ERR_INVALID_STAGES
  | BUTTON_ERR_NOT_INIT
  | BUTTON_ERR_UNKNOWN
deriving DecidableEq, Repr

/-- `cfg[i].threshold` of the C code: read of the configs array at index `i`. -/
def stage_threshold (cfg : List button_stage_config_t) (i : Nat) : Nat :=
  (cfg.getD i default).threshold

/-- `cfg[i].event` of the C code: read of the configs array at index `i`. -/
def stage_event (cfg : List button_stage_config_t) (i : Nat) : button_event_t :=
  (cfg.getD i default).event

/-- `validate_stages` of `button_static.c`: reject a null pointer, a zero
count, a zero first threshold, and any non-strictly-increasing pair of
adjacent thresholds. -/
def validate_stages (cfg : Option (List button_stage_config_t)) (count : Nat) : Bool :=
  match cfg with
  | none => false
  | some c =>
    if count == 0 then false
    else if stage_threshold c 0 == 0 then false
    else (List.range (count - 1)).all fun i =>
      decide (stage_threshold c i < stage_threshold c (i + 1))

/-- `Button_Init` of `button_static.c` (success path): the function-pointer
null checks are outside the model, `now = tick_fn()` is passed in. All
fields are set as by the designated initializer. -/
def Button_Init (gpio_num : Nat) (level : button_active_level_t) (now : Nat) : button_t :=
  { gpio_num := gpio_num
    active_level := level
    last_state := .stateIdle
    last_change_tick := now
    press_start_tick := now
    last_hold_tick := now
    last_event := .eventNone
    is_long_pressed_triggered := false
    callback := none
    context := none
    stages := { configs := none, latches := none, count := 0 } }

/-- `Button_ConfigStages` of `button_static.c` for a non-null button:
returns the error code and the (possibly updated) record. -/
def Button_ConfigStages (button : button_t) (configs : Option (List button_stage_config_t))
    (latches : Option (List Bool)) (count : Nat) : button_error_t × button_t :=
  if configs.isNone || latches.isNone || count == 0 then
    (.BUTTON_ERR_INVALID_ARG, button)
  else if !validate_stages configs count then
    (.BUTTON_ERR_INVALID_STAGES, button)
  else
    (.BUTTON_OK,
     { button with stages := { configs := configs, latches := latches, count := count } })

/-- `Button_ConfigStages` including the `!button` null check: the button
pointer is modelled by an `Option`. -/
def Button_ConfigStagesP (button : Option button_t) (configs : Option (List button_stage_config_t))
    (latches : Option (List Bool)) (count : Nat) : button_error_t × Option button_t :=
  match button with
  | none => (.BUTTON_ERR_INVALID_ARG, none)
  | some b =>
    let r := Button_ConfigStages b configs latches count
    (r.1, some r.2)

/-- `Button_RegisterHandler` of `button_static.c` for a non-null button. -/
def Button_RegisterHandler (button : button_t) (callback : Option Nat) (context : Option Nat) :
    button_error_t × button_t :=
  (.BUTTON_OK, { button with callback := callback, context := context })

/-- `Button_UnregisterHandler` of `button_static.c` for a non-null button. -/
def Button_UnregisterHandler (button : button_t) : button_error_t × button_t :=
  (.BUTTON_OK, { button with callback := none, context := none })

/-- `Button_Deinit` of `button_static.c` for a non-null button:
`*button = (button_t){0}` zeroes every field. -/
def Button_Deinit (_button : button_t) : button_error_t × button_t :=
  (.BUTTON_OK,
   { gpio_num := 0
     active_level := .activeLow
     last_state := .stateIdle
     last_change_tick := 0
     press_start_tick := 0
     last_hold_tick := 0
     last_event := .eventNone
     is_long_pressed_triggered := false
     callback := none
     context := none
     stages := { configs := none, latches := none, count := 0 } })

/-- Polarity mapping of `Button_Update`:
`is_pressed = (active_level == BUTTON_ACTIVE_LOW) ? (pin_state == 0) : (pin_state != 0)`. -/
def is_pressed_of (level : button_active_level_t) (pin_state : Bool) : Bool :=
  match level with
  | .activeLow => pin_state == false
  | .activeHigh => pin_state == true

/-- One iteration of the stage-scan loop body of `handle_state_long` at
index `i`: `if (total >= cfg[i].threshold && !latches[i]) { latches[i] = true;
dispatch(cfg[i].event); }`, acting on the pair (latches, events so far). -/
def scanStep (total : Nat) (configs : List button_stage_config_t)
    (acc : List Bool × List button_event_t) (i : Nat) : List Bool × List button_event_t :=
  if decide (total ≥ stage_threshold configs i) && !(acc.1.getD i false) then
    (acc.1.set i true, acc.2 ++ [stage_event configs i])
  else
    acc

/-- The whole stage-scan loop of `handle_state_long`: indices `0,…,count-1`
in ascending order. -/
def stageScan (total : Nat) (configs : List button_stage_config_t)
    (lat : List Bool) (count : Nat) : List Bool × List button_event_t :=
  (List.range count).foldl (scanStep total configs) (lat, [])

/-- The latch-clearing loop of the release branch of `handle_state_long`:
`for (i = 0; i < count; i++) latches[i] = false;`. -/
def clearLatches (lat : List Bool) (count : Nat) : List Bool :=
  (List.range count).foldl (fun l i => l.set i false) lat

/-- `handle_state_idle` of `button_static.c`. -/
def handle_state_idle (button : button_t) (is_pressed : Bool) (current_tick : Nat) :
    button_t × List button_event_t :=
  if is_pressed then
    ({ button with last_state := .stateDebounce, last_change_tick := current_tick }, [])
  else
    (button, [])

/-- `handle_state_debounce` of `button_static.c`. -/
def handle_state_debounce (button : button_t) (is_pressed : Bool) (current_tick : Nat) :
    button_t × List button_event_t :=
  let diff := usub32 current_tick button.last_change_tick
  if diff ≥ BUTTON_DEBOUNCE_TICKS then
    if is_pressed then
      ({ button with last_state := .statePressed, last_change_tick := current_tick },
       [.eventPressed])
    else
      ({ button with last_state := .stateIdle }, [])
  else
    (button, [])

/-- `handle_state_pressed` of `button_static.c`. -/
def handle_state_pressed (button : button_t) (is_pressed : Bool) (current_tick : Nat) :
    button_t × List button_event_t :=
  let diff := usub32 current_tick button.last_change_tick
  if !is_pressed then
    ({ button with last_state := .stateIdle }, [.eventReleased])
  else if diff ≥ BUTTON_LONG_PRESS_TICKS then
    ({ button with
        last_state := .stateLongPressed
        last_change_tick := current_tick
        press_start_tick := current_tick
        last_hold_tick := current_tick },
     [.eventLongPressed])
  else
    (button, [])

/-- `handle_state_long` of `button_static.c`: release branch clears the latch
array (when non-null) and dispatches `Released`; otherwise the stage scan runs
(when both arrays are non-null), then the hold-repeat scan. -/
def handle_state_long (button : button_t) (is_pressed : Bool) (current_tick : Nat) :
    button_t × List button_event_t :=
  if !is_pressed then
    let latches' :=
      match button.stages.latches with
      | none => none
      | some lat => some (clearLatches lat button.stages.count)
    ({ button with
        last_state := .stateIdle
        stages := { button.stages with latches := latches' } },
     [.eventReleased])
  else
    let total_pressed_time := usub32 current_tick button.press_start_tick
    let scanned : button_t × List button_event_t :=
      match button.stages.configs, button.stages.latches with
      | some cfgs, some lat =>
        let r := stageScan total_pressed_time cfgs lat button.stages.count
        ({ button with stages := { button.stages with latches := some r.1 } }, r.2)
      | some _, none => (button, [])
      | none, _ => (button, [])
    if decide (total_pressed_time ≥ BUTTON_LONG_PRESS_TICKS) &&
       decide (usub32 current_tick scanned.1.last_hold_tick ≥ BUTTON_HOLD_TICKS) then
      ({ scanned.1 with last_hold_tick := current_tick }, scanned.2 ++ [.eventHold])
    else
      scanned

/-- `Button_Update` of `button_static.c` for an initialized button: the pin
sample and the tick are passed in for `read_pin_func` / `get_tick_func`.
Returns the new record and the list of events the poll computes, in dispatch
order. -/
def Button_Update (button : button_t) (pin_state : Bool) (current_tick : Nat) :
    button_t × List button_event_t :=
  let is_pressed := is_pressed_of button.active_level pin_state
  match button.last_state with
  | .stateIdle => handle_state_idle button is_pressed current_tick
  | .stateDebounce => handle_state_debounce button is_pressed current_tick
  | .statePressed => handle_state_pressed button is_pressed current_tick
  | .stateLongPressed => handle_state_long button is_pressed current_tick

/-- Events actually delivered to the application: each dispatch site is
guarded by `if (button->callback)`, so with a null callback the computed
events are dropped. -/
def dispatched (button : button_t) (events : List button_event_t) : List button_event_t :=
  if button.callback.isSome then events else []

/-- A sequence of polls: each input is a (pin sample, tick) pair; returns
the final record and the per-poll computed event lists. -/
def runPolls : button_t → List (Bool × Nat) → button_t × List (List button_event_t)
  | b, [] => (b, [])
  | b, i :: rest =>
    let r := Button_Update b i.1 i.2
    let rr := runPolls r.1 rest
    (rr.1, r.2 :: rr.2)

/-- The set of stage indices the scan fires in one poll, in ascending order:
those `i < count` with `total ≥ threshold[i]` and latch `i` unset. -/
def firedIdx (total : Nat) (configs : List button_stage_config_t)
    (lat : List Bool) (count : Nat) : List Nat :=
  (List.range count).filter fun i =>
    decide (total ≥ stage_threshold configs i) && !(lat.getD i false)

/-- Ghost trace: for a run of polls that stay in `LongPressed` while pressed,
the list of per-poll fired stage-index lists, with `ps` the (unchanged)
`press_start_tick` and `lat` the latch array at the start of the run. -/
def firedTrace (configs : List button_stage_config_t) (count : Nat) (ps : Nat) :
    List Bool → List Nat → List (List Nat)
  | _, [] => []
  | lat, t :: ts =>
    firedIdx (usub32 t ps) configs lat count ::
      firedTrace configs count ps (stageScan (usub32 t ps) configs lat count).1 ts

/-! ### Basic list-as-array lemmas -/

lemma getD_ge_length (l : List Bool) (i : Nat) (h : l.length ≤ i) :
    l.getD i false = false := by
  simp [List.getD, List.getElem?_eq_none h]

lemma getD_set_ne (l : List Bool) (i j : Nat) (b : Bool) (h : i ≠ j) :
    (l.set i b).getD j false = l.getD j false := by
  simp [List.getD, List.getElem?_set_ne h]

lemma getD_set_self (l : List Bool) (i : Nat) (b : Bool) (h : i < l.length) :
    (l.set i b).getD i false = b := by
  simp [List.getD, List.getElem?_set_self, h]

/-! ### Stage-scan characterization -/

lemma stageScan_zero (total : Nat) (c : List button_stage_config_t) (lat : List Bool) :
    stageScan total c lat 0 = (lat, []) := by
  simp [stageScan]

lemma stageScan_succ (total : Nat) (c : List button_stage_config_t) (lat : List Bool) (n : Nat) :
    stageScan total c lat (n + 1) = scanStep total c (stageScan total c lat n) n := by
  have h : List.range (n + 1) = List.range n ++ [n] := List.range_succ n
  simp [stageScan, h, List.foldl_append]

lemma scanStep_fst_length (total : Nat) (c : List button_stage_config_t)
    (acc : List Bool × List button_event_t) (i : Nat) :
    (scanStep total c acc i).1.length = acc.1.length := by
  unfold scanStep
  split <;> simp

lemma stageScan_fst_length (total : Nat) (c : List button_stage_config_t)
    (lat : List Bool) (n : Nat) :
    (stageScan total c lat n).1.length = lat.length := by
  induction n with
  | zero => simp [stageScan_zero]
  | succ n ih => rw [stageScan_succ, scanStep_fst_length, ih]

lemma scanStep_fst_getD_ne (total : Nat) (c : List button_stage_config_t)
    (acc : List Bool × List button_event_t) (i j : Nat) (h : i ≠ j) :
    (scanStep total c acc i).1.getD j false = acc.1.getD j false := by
  unfold scanStep
  split
  · exact getD_set_ne _ _ _ _ h
  · rfl

lemma stageScan_fst_getD_ge (total : Nat) (c : List button_stage_config_t)
    (lat : List Bool) (n j : Nat) (h : n ≤ j) :
    (stageScan total c lat n).1.getD j false = lat.getD j false := by
  induction n with
  | zero => simp [stageScan_zero]
  | succ n ih =>
    rw [stageScan_succ, scanStep_fst_getD_ne]
    · exact ih (Nat.le_of_succ_le h)
    · omega

lemma stageScan_fst_getD (total : Nat) (c : List button_stage_config_t)
    (lat : List Bool) (n : Nat) (h : n ≤ lat.length) (j : Nat) :
    (stageScan total c lat n).1.getD j false =
      (lat.getD j false || (decide (j < n) && decide (stage_threshold c j ≤ total))) := by
  induction n with
  | zero => simp [stageScan_zero]
  | succ n ih =>
    rw [stageScan_succ]
    by_cases hj : j = n
    · subst hj
      have hlt : j < (stageScan total c lat j).1.length := by
        rw [stageScan_fst_length]; omega
      have hbase : (stageScan total c lat j).1.getD j false = lat.getD j false :=
        stageScan_fst_getD_ge total c lat j j (le_refl j)
      unfold scanStep
      split
      · next hcond =>
        rw [hbase] at hcond
        have h1 : total ≥ stage_threshold c j ∧ lat.getD j false = false := by
          rcases Bool.and_eq_true _ _ |>.mp hcond with ⟨h1, h2⟩
          exact ⟨of_decide_eq_true h1, by simpa using h2⟩
        rw [getD_set_self _ _ _ hlt, h1.2]
        simp [h1.1, Nat.lt_succ_self]
      · next hcond =>
        rw [hbase] at hcond
        rw [hbase]
        simp only [Bool.and_eq_true, decide_eq_true_eq, Bool.not_eq_true', not_and] at hcond
        cases hl : lat.getD j false with
        | false =>
          have hng : ¬ (stage_threshold c j ≤ total) := fun hge => (hcond hge) hl
          simp [hng]
        | true => simp
    · have hdec : decide (j < n) = decide (j < n + 1) := by
        by_cases hjn : j < n
        · have h2 : j < n + 1 := by omega
          simp [hjn, h2]
        · have h2 : ¬ j < n + 1 := by omega
          simp [hjn, h2]
      rw [scanStep_fst_getD_ne _ _ _ _ _ (Ne.symm hj), ih (by omega), hdec]

lemma stageScan_fst_mono (total : Nat) (c : List button_stage_config_t)
    (lat : List Bool) (n i : Nat) (h : lat.getD i false = true) :
    (stageScan total c lat n).1.getD i false = true := by
  induction n with
  | zero => rw [stageScan_zero]; exact h
  | succ n ih =>
    rw [stageScan_succ]
    by_cases hi : n = i
    · subst hi
      unfold scanStep
      split
      · next hcond =>
        rw [ih] at hcond
        simp at hcond
      · exact ih
    · rw [scanStep_fst_getD_ne _ _ _ _ _ hi]
      exact ih

lemma stageScan_snd (total : Nat) (c : List button_stage_config_t)
    (lat : List Bool) (n : Nat) :
    (stageScan total c lat n).2 = (firedIdx total c lat n).map (stage_event c) := by
  induction n with
  | zero => simp [stageScan_zero, firedIdx]
  | succ n ih =>
    have hrange : List.range (n + 1) = List.range n ++ [n] := List.range_succ n
    have hbase : (stageScan total c lat n).1.getD n false = lat.getD n false :=
      stageScan_fst_getD_ge total c lat n n (le_refl n)
    rw [stageScan_succ]
    unfold scanStep
    by_cases hcond :
        (decide (total ≥ stage_threshold c n) && !(lat.getD n false)) = true
    · rw [if_pos (by rw [hbase]; exact hcond)]
      simp only [ge_iff_le, List.getD, List.get?_eq_getElem?] at hcond
      simp [ih, firedIdx, hrange, List.filter_append, List.filter, hcond]
    · rw [if_neg (by rw [hbase]; exact hcond)]
      have hcond2 : (decide (total ≥ stage_threshold c n) && !lat.getD n false) = false :=
        Bool.eq_false_iff.mpr hcond
      simp only [ge_iff_le, List.getD, List.get?_eq_getElem?] at hcond2
      simp [ih, firedIdx, hrange, List.filter_append, List.filter, hcond2]

lemma firedIdx_mem (total : Nat) (c : List button_stage_config_t)
    (lat : List Bool) (n i : Nat) :
    i ∈ firedIdx total c lat n ↔
      i < n ∧ stage_threshold c i ≤ total ∧ lat.getD i false = false := by
  simp [firedIdx, List.mem_filter, List.mem_range, Bool.and_eq_true,
    decide_eq_true_eq, Bool.not_eq_true', ge_iff_le, and_assoc, List.getD]

lemma firedIdx_pairwise (total : Nat) (c : List button_stage_config_t)
    (lat : List Bool) (n : Nat) :
    (firedIdx total c lat n).Pairwise (· < ·) :=
  (List.pairwise_lt_range n).filter _

/-! ### Latch clearing -/

lemma clearLatches_zero (lat : List Bool) : clearLatches lat 0 = lat := by
  simp [clearLatches]

lemma clearLatches_succ (lat : List Bool) (n : Nat) :
    clearLatches lat (n + 1) = (clearLatches lat n).set n false := by
  have h : List.range (n + 1) = List.range n ++ [n] := List.range_succ n
  simp [clearLatches, h, List.foldl_append]

lemma clearLatches_length (lat : List Bool) (n : Nat) :
    (clearLatches lat n).length = lat.length := by
  induction n with
  | zero => rw [clearLatches_zero]
  | succ n ih => rw [clearLatches_succ, List.length_set, ih]

lemma clearLatches_getD (lat : List Bool) (n j : Nat) :
    (clearLatches lat n).getD j false = if j < n then false else lat.getD j false := by
  induction n with
  | zero => simp [clearLatches_zero]
  | succ n ih =>
    rw [clearLatches_succ]
    by_cases hj : j = n
    · subst hj
      by_cases hl : j < lat.length
      · rw [getD_set_self _ _ _ (by rw [clearLatches_length]; exact hl)]
        simp
      · rw [getD_ge_length _ _ (by rw [List.length_set, clearLatches_length]; omega),
          if_pos (Nat.lt_succ_self j)]
    · rw [getD_set_ne _ _ _ _ (Ne.symm hj), ih]
      by_cases hjn : j < n
      · rw [if_pos hjn, if_pos (by omega)]
      · rw [if_neg hjn, if_neg (by omega)]

/-! ### Validation gives strict monotonicity of thresholds -/

lemma validate_stages_all (c : List button_stage_config_t) (n : Nat)
    (h : validate_stages (some c) n = true) :
    ((List.range (n - 1)).all fun i =>
      decide (stage_threshold c i < stage_threshold c (i + 1))) = true := by
  have h' : (if (n == 0) = true then false
      else if (stage_threshold c 0 == 0) = true then false
      else (List.range (n - 1)).all fun i =>
        decide (stage_threshold c i < stage_threshold c (i + 1))) = true := h
  by_cases h0 : (n == 0) = true
  · rw [if_pos h0] at h'
    exact absurd h' (by simp)
  · rw [if_neg h0] at h'
    by_cases h1 : (stage_threshold c 0 == 0) = true
    · rw [if_pos h1] at h'
      exact absurd h' (by simp)
    · rw [if_neg h1] at h'
      exact h'

lemma validate_stages_step (c : List button_stage_config_t) (n : Nat)
    (h : validate_stages (some c) n = true) (i : Nat) (hi : i + 1 < n) :
    stage_threshold c i < stage_threshold c (i + 1) := by
  have hall := List.all_eq_true.mp (validate_stages_all c n h) i
    (List.mem_range.mpr (by omega))
  exact of_decide_eq_true hall

lemma validate_stages_strictMono (c : List button_stage_config_t) (n : Nat)
    (h : validate_stages (some c) n = true) :
    ∀ i j, i < j → j < n → stage_threshold c i < stage_threshold c j := by
  intro i j hij hjn
  induction j with
  | zero => omega
  | succ j ih =>
    by_cases hi : i = j
    · subst hi
      exact validate_stages_step c n h i hjn
    · exact lt_trans (ih (by omega) (by omega))
        (validate_stages_step c n h j hjn)

lemma validate_stages_first_pos (c : List button_stage_config_t) (n : Nat)
    (h : validate_stages (some c) n = true) : 0 < stage_threshold c 0 := by
  have h' : (if (n == 0) = true then false
      else if (stage_threshold c 0 == 0) = true then false
      else (List.range (n - 1)).all fun i =>
        decide (stage_threshold c i < stage_threshold c (i + 1))) = true := h
  by_cases h0 : (n == 0) = true
  · rw [if_pos h0] at h'
    exact absurd h' (by simp)
  · rw [if_neg h0] at h'
    by_cases h1 : (stage_threshold c 0 == 0) = true
    · rw [if_pos h1] at h'
      exact absurd h' (by simp)
    · have : ¬ stage_threshold c 0 = 0 := by simpa using h1
      omega

/-! ### Trace lemmas for the stage firing behaviour over a press cycle -/

lemma firedTrace_nil (c : List button_stage_config_t) (n ps : Nat) (lat : List Bool) :
    firedTrace c n ps lat [] = [] := rfl

lemma firedTrace_cons (c : List button_stage_config_t) (n ps : Nat) (lat : List Bool)
    (t : Nat) (ts : List Nat) :
    firedTrace c n ps lat (t :: ts) =
      firedIdx (usub32 t ps) c lat n ::
        firedTrace c n ps (stageScan (usub32 t ps) c lat n).1 ts := rfl

lemma firedTrace_latch_true (c : List button_stage_config_t) (n ps : Nat)
    (ts : List Nat) (lat : List Bool) (i : Nat) (h : lat.getD i false = true) :
    ∀ k, i ∉ (firedTrace c n ps lat ts).getD k [] := by
  induction ts generalizing lat with
  | nil => intro k; simp [firedTrace_nil]
  | cons t ts ih =>
    intro k
    rw [firedTrace_cons]
    match k with
    | 0 =>
      intro hmem
      have := (firedIdx_mem _ c lat n i).mp hmem
      rw [h] at this
      exact absurd this.2.2 (by simp)
    | k + 1 =>
      exact ih _ (stageScan_fst_mono _ c lat n i h) k

lemma firedTrace_latch_was_false (c : List button_stage_config_t) (n ps : Nat)
    (ts : List Nat) (lat : List Bool) (i k : Nat)
    (h : i ∈ (firedTrace c n ps lat ts).getD k []) :
    lat.getD i false = false ∧ i < n := by
  induction ts generalizing lat k with
  | nil => simp [firedTrace_nil] at h
  | cons t ts ih =>
    rw [firedTrace_cons] at h
    match k with
    | 0 =>
      have := (firedIdx_mem _ c lat n i).mp h
      exact ⟨this.2.2, this.1⟩
    | k + 1 =>
      have := ih _ k h
      refine ⟨?_, this.2⟩
      by_contra hne
      have htrue : lat.getD i false = true := by
        cases hv : lat.getD i false
        · exact absurd hv hne
        · rfl
      rw [stageScan_fst_mono _ c lat n i htrue] at this
      exact absurd this.1 (by simp)

lemma firedTrace_at_most_once (c : List button_stage_config_t) (n ps : Nat)
    (ts : List Nat) (lat : List Bool) (hlen : n ≤ lat.length)
    (k1 k2 i : Nat) (hk : k1 < k2)
    (h1 : i ∈ (firedTrace c n ps lat ts).getD k1 []) :
    i ∉ (firedTrace c n ps lat ts).getD k2 [] := by
  induction ts generalizing lat k1 k2 with
  | nil => simp [firedTrace_nil] at h1
  | cons t ts ih =>
    rw [firedTrace_cons] at h1 ⊢
    match k1, k2, hk with
    | 0, k2 + 1, _ =>
      have hm := (firedIdx_mem _ c lat n i).mp h1
      have hset : (stageScan (usub32 t ps) c lat n).1.getD i false = true := by
        rw [stageScan_fst_getD _ c lat n hlen i]
        simp [hm.1, hm.2.1]
      exact firedTrace_latch_true c n ps ts _ i hset k2
    | k1 + 1, k2 + 1, hk =>
      exact ih _ (by rw [stageScan_fst_length]; exact hlen) k1 k2 (by omega) h1

lemma firedTrace_cross_order (c : List button_stage_config_t) (n ps : Nat)
    (ts : List Nat) (lat : List Bool) (hlen : n ≤ lat.length)
    (k1 k2 i j : Nat) (hk : k1 < k2)
    (h1 : i ∈ (firedTrace c n ps lat ts).getD k1 [])
    (h2 : j ∈ (firedTrace c n ps lat ts).getD k2 []) :
    stage_threshold c i < stage_threshold c j := by
  induction ts generalizing lat k1 k2 with
  | nil => simp [firedTrace_nil] at h1
  | cons t ts ih =>
    rw [firedTrace_cons] at h1 h2
    match k1, k2, hk with
    | 0, k2 + 1, _ =>
      have hm := (firedIdx_mem _ c lat n i).mp h1
      have hj := firedTrace_latch_was_false c n ps ts _ j k2 h2
      have hlatch := hj.1
      rw [stageScan_fst_getD _ c lat n hlen j, decide_eq_true hj.2] at hlatch
      simp only [Bool.true_and, Bool.or_eq_false_iff,
        decide_eq_false_iff_not, not_le] at hlatch
      have h1le : stage_threshold c i ≤ usub32 t ps := hm.2.1
      have h2gt : usub32 t ps < stage_threshold c j := hlatch.2
      omega
    | k1 + 1, k2 + 1, hk =>
      exact ih _ (by rw [stageScan_fst_length]; exact hlen) k1 k2 (by omega) h1 h2

lemma pairwise_range_of (P : Nat → Nat → Prop) :
    ∀ n, (∀ i j, i < j → j < n → P i j) → (List.range n).Pairwise P := by
  intro n
  induction n with
  | zero => intro _h; simp
  | succ m ih =>
    intro h
    rw [List.range_succ, List.pairwise_append]
    refine ⟨ih (fun i j hij hjn => h i j hij (by omega)), by simp, ?_⟩
    intro a ha b hb
    rw [List.mem_range] at ha
    rw [List.mem_singleton] at hb
    exact h a b (by omega) (by omega)

lemma firedIdx_pairwise_threshold (total : Nat) (c : List button_stage_config_t)
    (lat : List Bool) (n : Nat) (hval : validate_stages (some c) n = true) :
    (firedIdx total c lat n).Pairwise
      (fun i j => i < j ∧ stage_threshold c i < stage_threshold c j) := by
  have hr : (List.range n).Pairwise
      (fun i j => i < j ∧ stage_threshold c i < stage_threshold c j) :=
    pairwise_range_of _ n (fun i j hij hjn =>
      ⟨hij, validate_stages_strictMono c n hval i j hij hjn⟩)
  exact hr.filter _

lemma firedTrace_pairwise (c : List button_stage_config_t) (n ps : Nat)
    (ts : List Nat) (lat : List Bool) (hval : validate_stages (some c) n = true)
    (k : Nat) :
    ((firedTrace c n ps lat ts).getD k []).Pairwise
      (fun i j => i < j ∧ stage_threshold c i < stage_threshold c j) := by
  induction ts generalizing lat k with
  | nil => simp [firedTrace_nil]
  | cons t ts ih =>
    rw [firedTrace_cons]
    match k with
    | 0 => exact firedIdx_pairwise_threshold _ c lat n hval
    | k + 1 => exact ih _ k

/-! ### Single-poll characterization -/

lemma update_state_idle (b : button_t) (pin : Bool) (t : Nat)
    (hst : b.last_state = .stateIdle) :
    Button_Update b pin t = handle_state_idle b (is_pressed_of b.active_level pin) t := by
  unfold Button_Update
  rw [hst]

lemma update_state_debounce (b : button_t) (pin : Bool) (t : Nat)
    (hst : b.last_state = .stateDebounce) :
    Button_Update b pin t = handle_state_debounce b (is_pressed_of b.active_level pin) t := by
  unfold Button_Update
  rw [hst]

lemma update_state_pressed (b : button_t) (pin : Bool) (t : Nat)
    (hst : b.last_state = .statePressed) :
    Button_Update b pin t = handle_state_pressed b (is_pressed_of b.active_level pin) t := by
  unfold Button_Update
  rw [hst]

lemma update_state_long (b : button_t) (pin : Bool) (t : Nat)
    (hst : b.last_state = .stateLongPressed) :
    Button_Update b pin t = handle_state_long b (is_pressed_of b.active_level pin) t := by
  unfold Button_Update
  rw [hst]

lemma handle_idle_pressed (b : button_t) (t : Nat) :
    handle_state_idle b true t =
      ({ b with last_state := .stateDebounce, last_change_tick := t }, []) := rfl

lemma handle_idle_notpressed (b : button_t) (t : Nat) :
    handle_state_idle b false t = (b, []) := rfl

lemma handle_debounce_wait (b : button_t) (isp : Bool) (t : Nat)
    (h : usub32 t b.last_change_tick < BUTTON_DEBOUNCE_TICKS) :
    handle_state_debounce b isp t = (b, []) := by
  unfold handle_state_debounce
  rw [if_neg (by omega)]

lemma handle_debounce_accept (b : button_t) (t : Nat)
    (h : usub32 t b.last_change_tick ≥ BUTTON_DEBOUNCE_TICKS) :
    handle_state_debounce b true t =
      ({ b with last_state := .statePressed, last_change_tick := t },
       [.eventPressed]) := by
  unfold handle_state_debounce
  rw [if_pos h, if_pos rfl]

lemma handle_debounce_reject (b : button_t) (t : Nat)
    (h : usub32 t b.last_change_tick ≥ BUTTON_DEBOUNCE_TICKS) :
    handle_state_debounce b false t = ({ b with last_state := .stateIdle }, []) := by
  unfold handle_state_debounce
  rw [if_pos h, if_neg (by simp)]

lemma handle_pressed_release (b : button_t) (t : Nat) :
    handle_state_pressed b false t =
      ({ b with last_state := .stateIdle }, [.eventReleased]) := by
  unfold handle_state_pressed
  rw [if_pos (by simp)]

lemma handle_pressed_to_long (b : button_t) (t : Nat)
    (h : usub32 t b.last_change_tick ≥ BUTTON_LONG_PRESS_TICKS) :
    handle_state_pressed b true t =
      ({ b with
          last_state := .stateLongPressed
          last_change_tick := t
          press_start_tick := t
          last_hold_tick := t },
       [.eventLongPressed]) := by
  unfold handle_state_pressed
  rw [if_neg (by simp), if_pos h]

lemma handle_pressed_stay (b : button_t) (t : Nat)
    (h : usub32 t b.last_change_tick < BUTTON_LONG_PRESS_TICKS) :
    handle_state_pressed b true t = (b, []) := by
  unfold handle_state_pressed
  rw [if_neg (by simp), if_neg (by omega)]

lemma handle_long_release (b : button_t) (t : Nat) :
    handle_state_long b false t =
      ({ b with
          last_state := .stateIdle
          stages := { b.stages with latches :=
            match b.stages.latches with
            | none => none
            | some lat => some (clearLatches lat b.stages.count) } },
       [.eventReleased]) := by
  unfold handle_state_long
  rw [if_pos (by simp)]

lemma handle_long_pressed (b : button_t) (t : Nat)
    (c : List button_stage_config_t) (l : List Bool)
    (hc : b.stages.configs = some c) (hl : b.stages.latches = some l) :
    handle_state_long b true t =
      (let total := usub32 t b.press_start_tick
       let b1 : button_t :=
         { b with stages := { b.stages with latches := some (stageScan total c l b.stages.count).1 } }
       if decide (total ≥ BUTTON_LONG_PRESS_TICKS) &&
          decide (usub32 t b.last_hold_tick ≥ BUTTON_HOLD_TICKS) then
         ({ b1 with last_hold_tick := t },
          (firedIdx total c l b.stages.count).map (stage_event c) ++ [.eventHold])
       else
         (b1, (firedIdx total c l b.stages.count).map (stage_event c))) := by
  unfold handle_state_long
  rw [if_neg (by simp)]
  simp only [hc, hl]
  rw [stageScan_snd]

lemma handle_long_pressed_nocfg (b : button_t) (t : Nat)
    (h : b.stages.configs = none ∨ b.stages.latches = none) :
    handle_state_long b true t =
      (if decide (usub32 t b.press_start_tick ≥ BUTTON_LONG_PRESS_TICKS) &&
          decide (usub32 t b.last_hold_tick ≥ BUTTON_HOLD_TICKS) then
         ({ b with last_hold_tick := t }, [.eventHold])
       else
         (b, [])) := by
  unfold handle_state_long
  rw [if_neg (by simp)]
  rcases h with h | h
  · simp only [h, List.nil_append]
  · rw [h]
    cases hco : b.stages.configs <;> simp only [List.nil_append]

/-- Field-level description of one poll taken in `LongPressed` while still
pressed, with both stage arrays attached. -/
lemma update_long_pressed_fields (b : button_t) (pin : Bool) (t : Nat)
    (c : List button_stage_config_t) (l : List Bool)
    (hst : b.last_state = .stateLongPressed)
    (hp : is_pressed_of b.active_level pin = true)
    (hc : b.stages.configs = some c) (hl : b.stages.latches = some l) :
    (Button_Update b pin t).1.last_state = .stateLongPressed ∧
    (Button_Update b pin t).1.active_level = b.active_level ∧
    (Button_Update b pin t).1.press_start_tick = b.press_start_tick ∧
    (Button_Update b pin t).1.stages.configs = some c ∧
    (Button_Update b pin t).1.stages.count = b.stages.count ∧
    (Button_Update b pin t).1.stages.latches =
      some (stageScan (usub32 t b.press_start_tick) c l b.stages.count).1 ∧
    (Button_Update b pin t).2 =
      (firedIdx (usub32 t b.press_start_tick) c l b.stages.count).map (stage_event c) ++
        (if decide (usub32 t b.press_start_tick ≥ BUTTON_LONG_PRESS_TICKS) &&
            decide (usub32 t b.last_hold_tick ≥ BUTTON_HOLD_TICKS) then
          [button_event_t.eventHold] else []) ∧
    (Button_Update b pin t).1.last_hold_tick =
      (if decide (usub32 t b.press_start_tick ≥ BUTTON_LONG_PRESS_TICKS) &&
          decide (usub32 t b.last_hold_tick ≥ BUTTON_HOLD_TICKS) then
        t else b.last_hold_tick) := by
  rw [update_state_long b pin t hst, hp, handle_long_pressed b t c l hc hl]
  dsimp only
  by_cases hcond :
      (decide (usub32 t b.press_start_tick ≥ BUTTON_LONG_PRESS_TICKS) &&
       decide (usub32 t b.last_hold_tick ≥ BUTTON_HOLD_TICKS)) = true
  · rw [if_pos hcond, if_pos hcond, if_pos hcond]
    exact ⟨hst, rfl, rfl, hc, rfl, rfl, rfl, rfl⟩
  · rw [if_neg hcond, if_neg hcond, if_neg hcond]
    exact ⟨hst, rfl, rfl, hc, rfl, rfl, by simp, rfl⟩

/-- Over a run of polls that are all sampled pressed, starting in
`LongPressed` with both stage arrays attached, the k-th poll's computed
events are exactly the fired stage events of the k-th entry of `firedTrace`
(in scan order), possibly followed by one `Hold` from the hold-repeat scan. -/
lemma runPolls_long_trace (c : List button_stage_config_t) (pin : Bool) :
    ∀ (ticks : List Nat) (b : button_t) (l : List Bool),
      b.last_state = .stateLongPressed →
      is_pressed_of b.active_level pin = true →
      b.stages.configs = some c →
      b.stages.latches = some l →
      ∀ k, ∃ tail,
        (runPolls b (ticks.map fun t => (pin, t))).2.getD k [] =
          ((firedTrace c b.stages.count b.press_start_tick l ticks).getD k []).map
            (stage_event c) ++ tail ∧
        (tail = [] ∨ tail = [button_event_t.eventHold]) := by
  intro ticks
  induction ticks with
  | nil =>
    intro b l _ _ _ _ k
    exact ⟨[], by simp [runPolls, firedTrace_nil], Or.inl rfl⟩
  | cons t ts ih =>
    intro b l hst hp hc hl k
    have hf := update_long_pressed_fields b pin t c l hst hp hc hl
    obtain ⟨hf1, hf2, hf3, hf4, hf5, hf6, hf7, hf8⟩ := hf
    have hrun : runPolls b (((t :: ts)).map fun u => (pin, u)) =
        ((runPolls (Button_Update b pin t).1 (ts.map fun u => (pin, u))).1,
         (Button_Update b pin t).2 ::
           (runPolls (Button_Update b pin t).1 (ts.map fun u => (pin, u))).2) := rfl
    rw [hrun, firedTrace_cons]
    match k with
    | 0 =>
      by_cases hcond :
          (decide (usub32 t b.press_start_tick ≥ BUTTON_LONG_PRESS_TICKS) &&
           decide (usub32 t b.last_hold_tick ≥ BUTTON_HOLD_TICKS)) = true
      · refine ⟨[button_event_t.eventHold], ?_, Or.inr rfl⟩
        simpa [hcond] using hf7
      · refine ⟨[], ?_, Or.inl rfl⟩
        rw [if_neg hcond] at hf7
        simpa using hf7
    | k + 1 =>
      have := ih (Button_Update b pin t).1
        (stageScan (usub32 t b.press_start_tick) c l b.stages.count).1
        hf1 (by rw [hf2]; exact hp) hf4 hf6 k
      rw [hf5, hf3] at this
      exact this

/-! ### Claim theorems -/

lemma usub32_exact (t0 t1 : Nat) (h01 : t0 ≤ t1) (hsep : t1 - t0 < UINT32_MOD) :
    usub32 (t1 % UINT32_MOD) (t0 % UINT32_MOD) = t1 - t0 := by
  unfold usub32 UINT32_MOD at *
  omega

/-- Conclusion of claim C1, for a button `b` in `LongPressed` with stage
arrays `c`/`l` attached, polled while pressed at the given ticks:
(1) each poll's computed events are the fired stages' events in scan order,
possibly followed by one `Hold`; (2) a stage fires in a poll exactly when its
latch is unset and its threshold is at most `total`, and its latch is set by
the scan; (3) within one poll the fired stages are in ascending index order
with strictly increasing thresholds; (4) no stage fires twice in the run;
(5) across polls, an earlier-fired stage has a strictly smaller threshold. -/
def stage_cycle_spec (b : button_t) (c : List button_stage_config_t) (l : List Bool)
    (pin : Bool) (ticks : List Nat) : Prop :=
  (∀ k, ∃ tail,
      (runPolls b (ticks.map fun t => (pin, t))).2.getD k [] =
        ((firedTrace c b.stages.count b.press_start_tick l ticks).getD k []).map
          (stage_event c) ++ tail ∧
      (tail = [] ∨ tail = [button_event_t.eventHold])) ∧
  (∀ t i, i ∈ firedIdx (usub32 t b.press_start_tick) c l b.stages.count ↔
      i < b.stages.count ∧ stage_threshold c i ≤ usub32 t b.press_start_tick ∧
      l.getD i false = false) ∧
  (∀ t j, j < b.stages.count →
      (stageScan (usub32 t b.press_start_tick) c l b.stages.count).1.getD j false =
        (l.getD j false || decide (stage_threshold c j ≤ usub32 t b.press_start_tick))) ∧
  (∀ k, ((firedTrace c b.stages.count b.press_start_tick l ticks).getD k []).Pairwise
      (fun i j => i < j ∧ stage_threshold c i < stage_threshold c j)) ∧
  (∀ k1 k2 i, k1 < k2 →
      i ∈ (firedTrace c b.stages.count b.press_start_tick l ticks).getD k1 [] →
      i ∉ (firedTrace c b.stages.count b.press_start_tick l ticks).getD k2 []) ∧
  (∀ k1 k2 i j, k1 < k2 →
      i ∈ (firedTrace c b.stages.count b.press_start_tick l ticks).getD k1 [] →
      j ∈ (firedTrace c b.stages.count b.press_start_tick l ticks).getD k2 [] →
      stage_threshold c i < stage_threshold c j)

/-- Claim C1: for a button in `LongPressed` that stays pressed, each poll
scans the configured stages in ascending index order, firing exactly those
whose latch is unset and whose threshold is at most
`total = current_tick - press_start_tick`, setting their latches; each
configured stage fires at most once per press cycle, several stages may fire
in one poll, and whenever stage `i` fires before stage `j` within the cycle,
`threshold[i] < threshold[j]`. -/
theorem claim_C1 (b : button_t) (c : List button_stage_config_t) (l : List Bool)
    (pin : Bool) (ticks : List Nat)
    (hst : b.last_state = .stateLongPressed)
    (hp : is_pressed_of b.active_level pin = true)
    (hc : b.stages.configs = some c)
    (hl : b.stages.latches = some l)
    (hlen : b.stages.count ≤ l.length)
    (hval : validate_stages (some c) b.stages.count = true) :
    stage_cycle_spec b c l pin ticks := by
  refine ⟨runPolls_long_trace c pin ticks b l hst hp hc hl, ?_, ?_, ?_, ?_, ?_⟩
  · intro t i
    exact firedIdx_mem (usub32 t b.press_start_tick) c l b.stages.count i
  · intro t j hj
    rw [stageScan_fst_getD _ c l b.stages.count hlen j, decide_eq_true hj,
      Bool.true_and]
  · intro k
    exact firedTrace_pairwise c b.stages.count b.press_start_tick ticks l hval k
  · intro k1 k2 i hk h1
    exact firedTrace_at_most_once c b.stages.count b.press_start_tick ticks l hlen
      k1 k2 i hk h1
  · intro k1 k2 i j hk h1 h2
    exact firedTrace_cross_order c b.stages.count b.press_start_tick ticks l hlen
      k1 k2 i j hk h1 h2

/-- Witness for C1: a concrete `LongPressed` button with two stages
(thresholds 100 and 300), polled pressed at ticks 1250 and 1400. -/
theorem claim_C1_witness :
    stage_cycle_spec
      { last_change_tick := 1000, press_start_tick := 1000, last_hold_tick := 1000,
        gpio_num := 0, active_level := .activeHigh, last_state := .stateLongPressed,
        last_event := .eventNone, is_long_pressed_triggered := false,
        context := none, callback := some 0,
        stages := { configs := some [{ threshold := 100, event := .eventNone },
                                     { threshold := 300, event := .eventSuperLongPressed }],
                    latches := some [false, false], count := 2 } }
      [{ threshold := 100, event := .eventNone },
       { threshold := 300, event := .eventSuperLongPressed }]
      [false, false] true [1250, 1400] :=
  claim_C1 _ _ _ _ _ rfl (by decide) rfl rfl (by decide) (by decide)

/-- The poll logic never reads or writes the `callback`/`context` fields:
polls of two records differing only there produce the same post-state
(up to those fields) and the same computed events. -/
lemma update_callback_congr (b : button_t) (cb ctx : Option Nat) (pin : Bool) (t : Nat) :
    Button_Update { b with callback := cb, context := ctx } pin t =
      ({ (Button_Update b pin t).1 with callback := cb, context := ctx },
       (Button_Update b pin t).2) := by
  obtain ⟨lct, pst, lht, g, al, ls, le, ilt, cx, cbk, st⟩ := b
  obtain ⟨cfgs, lats, cnt⟩ := st
  cases ls <;>
    dsimp only [Button_Update, handle_state_idle, handle_state_debounce,
      handle_state_pressed, handle_state_long] <;>
    cases cfgs <;> cases lats <;>
    split_ifs <;>
    rfl

/-- Claim C8: `Button_UnregisterHandler` nulls both the callback and the
context; afterwards every poll performs exactly the same state, timestamp and
latch mutations as with a handler attached, while delivering no event:
records identical except for callback/context yield identical post-states
(apart from those two fields) and identical computed events, and `dispatched`
drops everything when the callback is null. -/
theorem claim_C8 (b : button_t) (cb ctx : Option Nat) (pin : Bool) (tick : Nat)
    (evs : List button_event_t) (x : Nat) :
    Button_UnregisterHandler b =
      (.BUTTON_OK, { b with callback := none, context := none }) ∧
    (Button_UnregisterHandler b).2.callback = none ∧
    (Button_UnregisterHandler b).2.context = none ∧
    Button_Update { b with callback := cb, context := ctx } pin tick =
      ({ (Button_Update b pin tick).1 with callback := cb, context := ctx },
       (Button_Update b pin tick).2) ∧
    Button_Update (Button_UnregisterHandler b).2 pin tick =
      ({ (Button_Update b pin tick).1 with callback := none, context := none },
       (Button_Update b pin tick).2) ∧
    dispatched { b with callback := none, context := ctx } evs = [] ∧
    dispatched { b with callback := some x } evs = evs :=
  ⟨rfl, rfl, rfl, update_callback_congr b cb ctx pin tick,
   update_callback_congr b none none pin tick, rfl, rfl⟩

/-- Claim C7: every elapsed-time quantity the poll computes is the unsigned
32-bit difference `usub32`; for any two tick readings whose true separation
is below `2^32`, `usub32` of the reduced (wrapped) counter values recovers
the true difference, so every threshold comparison is unaffected by counter
wraparound — e.g. a debounce wait still waits out `BUTTON_DEBOUNCE_TICKS`
across a wraparound. -/
theorem claim_C7 (t0 t1 : Nat) (h01 : t0 ≤ t1) (hsep : t1 - t0 < UINT32_MOD) :
    usub32 (t1 % UINT32_MOD) (t0 % UINT32_MOD) = t1 - t0 ∧
    (∀ D : Nat, usub32 (t1 % UINT32_MOD) (t0 % UINT32_MOD) ≥ D ↔ t1 - t0 ≥ D) ∧
    (∀ (b : button_t) (pin : Bool), b.last_state = .stateDebounce →
      b.last_change_tick = t0 % UINT32_MOD →
      t1 - t0 < BUTTON_DEBOUNCE_TICKS →
      Button_Update b pin (t1 % UINT32_MOD) = (b, [])) := by
  have h := usub32_exact t0 t1 h01 hsep
  refine ⟨h, fun D => by rw [h], ?_⟩
  intro b pin hst hlc hd
  rw [update_state_debounce b pin _ hst]
  exact handle_debounce_wait b _ _ (by rw [hlc, h]; exact hd)

/-- Witness for C7: tick counter wraps between readings 2^32 - 6 and 5
(true separation 11). -/
theorem claim_C7_witness :
    usub32 (4294967301 % UINT32_MOD) (4294967290 % UINT32_MOD) = 4294967301 - 4294967290 ∧
    (∀ D : Nat, usub32 (4294967301 % UINT32_MOD) (4294967290 % UINT32_MOD) ≥ D ↔
      4294967301 - 4294967290 ≥ D) ∧
    (∀ (b : button_t) (pin : Bool), b.last_state = .stateDebounce →
      b.last_change_tick = 4294967290 % UINT32_MOD →
      4294967301 - 4294967290 < BUTTON_DEBOUNCE_TICKS →
      Button_Update b pin (4294967301 % UINT32_MOD) = (b, [])) :=
  claim_C7 4294967290 4294967301 (by decide) (by decide)

/-- Claim C4: a not-pressed sample observed in `Pressed` or in `LongPressed`
returns the state to `Idle` on that same poll and computes exactly one
`Released` event. -/
theorem claim_C4 (b : button_t) (pin : Bool) (tick : Nat)
    (hst : b.last_state = .statePressed ∨ b.last_state = .stateLongPressed)
    (hp : is_pressed_of b.active_level pin = false) :
    (Button_Update b pin tick).1.last_state = .stateIdle ∧
    (Button_Update b pin tick).2 = [button_event_t.eventReleased] := by
  rcases hst with hst | hst
  · rw [update_state_pressed b pin tick hst, hp, handle_pressed_release]
    exact ⟨rfl, rfl⟩
  · rw [update_state_long b pin tick hst, hp, handle_long_release]
    exact ⟨rfl, rfl⟩

/-- Witness for C4: a concrete `Pressed`-state button sampled not pressed. -/
theorem claim_C4_witness :
    (Button_Update
      { last_change_tick := 100, press_start_tick := 100, last_hold_tick := 100,
        gpio_num := 3, active_level := .activeHigh, last_state := .statePressed,
        last_event := .eventNone, is_long_pressed_triggered := false,
        context := none, callback := some 1,
        stages := { configs := none, latches := none, count := 0 } }
      false 160).1.last_state = .stateIdle ∧
    (Button_Update
      { last_change_tick := 100, press_start_tick := 100, last_hold_tick := 100,
        gpio_num := 3, active_level := .activeHigh, last_state := .statePressed,
        last_event := .eventNone, is_long_pressed_triggered := false,
        context := none, callback := some 1,
        stages := { configs := none, latches := none, count := 0 } }
      false 160).2 = [button_event_t.eventReleased] :=
  claim_C4 _ false 160 (Or.inl rfl) (by decide)

/-- Conclusion of claim C2: the poll dispatches one `Hold` (after the stage
events) and stamps `last_hold_tick` exactly when `total ≥ LONG_PRESS` and
`current_tick - last_hold_tick ≥ HOLD`; otherwise no `Hold` and no stamp. -/
def hold_repeat_spec (b : button_t) (pin : Bool) (tick : Nat)
    (c : List button_stage_config_t) (l : List Bool) : Prop :=
    (usub32 tick b.press_start_tick ≥ BUTTON_LONG_PRESS_TICKS →
     usub32 tick b.last_hold_tick ≥ BUTTON_HOLD_TICKS →
      (Button_Update b pin tick).1.last_hold_tick = tick ∧
      (Button_Update b pin tick).2 =
        (firedIdx (usub32 tick b.press_start_tick) c l b.stages.count).map (stage_event c)
          ++ [button_event_t.eventHold]) ∧
    (usub32 tick b.press_start_tick < BUTTON_LONG_PRESS_TICKS ∨
     usub32 tick b.last_hold_tick < BUTTON_HOLD_TICKS →
      (Button_Update b pin tick).1.last_hold_tick = b.last_hold_tick ∧
      (Button_Update b pin tick).2 =
        (firedIdx (usub32 tick b.press_start_tick) c l b.stages.count).map (stage_event c)) ∧
    ((∀ i, i < b.stages.count → stage_event c i ≠ button_event_t.eventHold) →
      ((Button_Update b pin tick).2.count button_event_t.eventHold =
        if usub32 tick b.press_start_tick ≥ BUTTON_LONG_PRESS_TICKS ∧
           usub32 tick b.last_hold_tick ≥ BUTTON_HOLD_TICKS then 1 else 0))

/-- Claim C2: in `LongPressed` while still pressed, once
`total = current_tick - press_start_tick` has reached
`BUTTON_LONG_PRESS_TICKS`, a poll with
`current_tick - last_hold_tick >= BUTTON_HOLD_TICKS` sets `last_hold_tick`
to `current_tick` and appends exactly one `Hold` event after the stage
events; otherwise `last_hold_tick` is unchanged and no `Hold` is appended:
the hold-repeat fires once per `BUTTON_HOLD_TICKS` elapsed, not more. -/
theorem claim_C2 (b : button_t) (pin : Bool) (tick : Nat)
    (c : List button_stage_config_t) (l : List Bool)
    (hst : b.last_state = .stateLongPressed)
    (hp : is_pressed_of b.active_level pin = true)
    (hc : b.stages.configs = some c) (hl : b.stages.latches = some l) :
    hold_repeat_spec b pin tick c l := by
  unfold hold_repeat_spec
  obtain ⟨hf1, hf2, hf3, hf4, hf5, hf6, hf7, hf8⟩ :=
    update_long_pressed_fields b pin tick c l hst hp hc hl
  have hzero : (∀ i, i < b.stages.count → stage_event c i ≠ button_event_t.eventHold) →
      ((firedIdx (usub32 tick b.press_start_tick) c l b.stages.count).map
        (stage_event c)).count button_event_t.eventHold = 0 := by
    intro hne
    rw [List.count_eq_zero]
    intro hmem
    obtain ⟨i, hi, hei⟩ := List.mem_map.mp hmem
    have := (firedIdx_mem _ c l b.stages.count i).mp hi
    exact hne i this.1 hei
  refine ⟨?_, ?_, ?_⟩
  · intro h1 h2
    have hcond : (decide (usub32 tick b.press_start_tick ≥ BUTTON_LONG_PRESS_TICKS) &&
        decide (usub32 tick b.last_hold_tick ≥ BUTTON_HOLD_TICKS)) = true := by
      simp [h1, h2]
    rw [if_pos hcond] at hf7 hf8
    exact ⟨hf8, hf7⟩
  · intro h
    have hcond : (decide (usub32 tick b.press_start_tick ≥ BUTTON_LONG_PRESS_TICKS) &&
        decide (usub32 tick b.last_hold_tick ≥ BUTTON_HOLD_TICKS)) = false := by
      rcases h with h | h
      · have hh : ¬ usub32 tick b.press_start_tick ≥ BUTTON_LONG_PRESS_TICKS := by omega
        simp [hh]
      · have hh : ¬ usub32 tick b.last_hold_tick ≥ BUTTON_HOLD_TICKS := by omega
        simp [hh]
    rw [if_neg (by rw [hcond]; simp)] at hf7 hf8
    rw [List.append_nil] at hf7
    exact ⟨hf8, hf7⟩
  · intro hne
    by_cases hcase : usub32 tick b.press_start_tick ≥ BUTTON_LONG_PRESS_TICKS ∧
        usub32 tick b.last_hold_tick ≥ BUTTON_HOLD_TICKS
    · have hcond : (decide (usub32 tick b.press_start_tick ≥ BUTTON_LONG_PRESS_TICKS) &&
          decide (usub32 tick b.last_hold_tick ≥ BUTTON_HOLD_TICKS)) = true := by
        simp [hcase.1, hcase.2]
      rw [if_pos hcase, if_pos hcond] at *
      rw [hf7, List.count_append, hzero hne]
      rfl
    · have hcond : (decide (usub32 tick b.press_start_tick ≥ BUTTON_LONG_PRESS_TICKS) &&
          decide (usub32 tick b.last_hold_tick ≥ BUTTON_HOLD_TICKS)) = false := by
        rcases Decidable.not_and_iff_or_not.mp hcase with h | h
        · simp [h]
        · simp [h]
      rw [if_neg hcase]
      rw [if_neg (by rw [hcond]; simp)] at hf7
      rw [List.append_nil] at hf7
      rw [hf7, hzero hne]

/-- Witness for C2: a `LongPressed` button with `press_start_tick = 1000`,
`last_hold_tick = 2000`, polled pressed at tick 2050 (total 1050). -/
theorem claim_C2_witness :
    hold_repeat_spec
      { last_change_tick := 1000, press_start_tick := 1000, last_hold_tick := 2000,
        gpio_num := 0, active_level := .activeHigh, last_state := .stateLongPressed,
        last_event := .eventNone, is_long_pressed_triggered := false,
        context := none, callback := some 0,
        stages := { configs := some [{ threshold := 100, event := .eventNone }],
                    latches := some [true], count := 1 } }
      true 2050
      [{ threshold := 100, event := .eventNone }] [true] :=
  claim_C2 _ true 2050 _ _ rfl (by decide) rfl rfl

lemma runPolls_append : ∀ (xs ys : List (Bool × Nat)) (b : button_t),
    runPolls b (xs ++ ys) =
      ((runPolls (runPolls b xs).1 ys).1,
       (runPolls b xs).2 ++ (runPolls (runPolls b xs).1 ys).2) := by
  intro xs
  induction xs with
  | nil => intro ys b; simp [runPolls]
  | cons x xs ih =>
    intro ys b
    show runPolls b (x :: (xs ++ ys)) = _
    rw [runPolls, runPolls, ih ys (Button_Update b x.1 x.2).1]
    rfl

/-- While the debounce window has not elapsed, every poll is a no-op,
whatever the pin samples: state, timestamps and events are all unchanged. -/
lemma runPolls_debounce_wait : ∀ (ins : List (Bool × Nat)) (b : button_t),
    b.last_state = .stateDebounce →
    (∀ p ∈ ins, usub32 p.2 b.last_change_tick < BUTTON_DEBOUNCE_TICKS) →
    runPolls b ins = (b, ins.map fun _ => []) := by
  intro ins
  induction ins with
  | nil => intro b _ _; rfl
  | cons p rest ih =>
    intro b hst hmid
    have hstep : Button_Update b p.1 p.2 = (b, []) := by
      rw [update_state_debounce b p.1 p.2 hst]
      exact handle_debounce_wait b _ p.2 (hmid p (List.mem_cons_self p rest))
    rw [runPolls, hstep]
    rw [ih b hst (fun q hq => hmid q (List.mem_cons_of_mem p hq))]
    rfl

lemma flatten_map_nil (xs : List (Bool × Nat)) :
    (xs.map fun _ => ([] : List button_event_t)).flatten = [] := by
  induction xs with
  | nil => rfl
  | cons x xs ih => simp [ih]

/-- Conclusion of claim C3 for a press episode starting from `Idle`: a first
pressed sample at `t0`, arbitrary samples while the debounce window is open,
then a deciding sample at `tf` at or after `BUTTON_DEBOUNCE_TICKS`. If the
deciding sample is not pressed, no event is ever computed and the state is
back to `Idle`; if it is pressed, exactly one `Pressed` event is computed in
the whole episode and the state is `Pressed`. -/
def debounce_law_spec (b : button_t) (p0 : Bool) (t0 : Nat)
    (mids : List (Bool × Nat)) (pf : Bool) (tf : Nat) : Prop :=
  (is_pressed_of b.active_level pf = false →
    (runPolls b ((p0, t0) :: (mids ++ [(pf, tf)]))).1.last_state = .stateIdle ∧
    (runPolls b ((p0, t0) :: (mids ++ [(pf, tf)]))).2.flatten = []) ∧
  (is_pressed_of b.active_level pf = true →
    (runPolls b ((p0, t0) :: (mids ++ [(pf, tf)]))).1.last_state = .statePressed ∧
    (runPolls b ((p0, t0) :: (mids ++ [(pf, tf)]))).2.flatten =
      [button_event_t.eventPressed] ∧
    (runPolls b ((p0, t0) :: (mids ++ [(pf, tf)]))).1.last_change_tick = tf)

/-- Claim C3: a press whose pressed samples all lie within the debounce
window and whose deciding sample (at or after `BUTTON_DEBOUNCE_TICKS`) is not
pressed computes no `Pressed` event at all; a press sampled pressed through
the deciding poll computes exactly one `Pressed` event. -/
theorem claim_C3 (b : button_t) (p0 : Bool) (t0 : Nat)
    (mids : List (Bool × Nat)) (pf : Bool) (tf : Nat)
    (hst : b.last_state = .stateIdle)
    (hp0 : is_pressed_of b.active_level p0 = true)
    (hmid : ∀ p ∈ mids, usub32 p.2 t0 < BUTTON_DEBOUNCE_TICKS)
    (hf : usub32 tf t0 ≥ BUTTON_DEBOUNCE_TICKS) :
    debounce_law_spec b p0 t0 mids pf tf := by
  unfold debounce_law_spec
  have step0 : Button_Update b p0 t0 =
      ({ b with last_state := .stateDebounce, last_change_tick := t0 }, []) := by
    rw [update_state_idle b p0 t0 hst, hp0, handle_idle_pressed]
  have hmain : runPolls b ((p0, t0) :: (mids ++ [(pf, tf)])) =
      ((runPolls (Button_Update b p0 t0).1 (mids ++ [(pf, tf)])).1,
       (Button_Update b p0 t0).2 ::
         (runPolls (Button_Update b p0 t0).1 (mids ++ [(pf, tf)])).2) := rfl
  rw [step0] at hmain
  have hwait : runPolls
      ({ b with last_state := .stateDebounce, last_change_tick := t0 }) mids =
      ({ b with last_state := .stateDebounce, last_change_tick := t0 },
       mids.map fun _ => []) :=
    runPolls_debounce_wait mids _ rfl hmid
  have happ := runPolls_append mids [(pf, tf)]
    ({ b with last_state := .stateDebounce, last_change_tick := t0 })
  rw [hwait] at happ
  have hlast : runPolls
      ({ b with last_state := .stateDebounce, last_change_tick := t0 }) [(pf, tf)] =
      ((Button_Update
          ({ b with last_state := .stateDebounce, last_change_tick := t0 }) pf tf).1,
       [(Button_Update
          ({ b with last_state := .stateDebounce, last_change_tick := t0 }) pf tf).2]) := rfl
  constructor
  · intro hpf
    have hupd : Button_Update
        ({ b with last_state := .stateDebounce, last_change_tick := t0 }) pf tf =
        ({ b with last_state := .stateIdle, last_change_tick := t0 }, []) := by
      rw [update_state_debounce _ pf tf rfl, hpf, handle_debounce_reject _ tf hf]
    rw [hupd] at hlast
    rw [hlast] at happ
    rw [happ] at hmain
    rw [hmain]
    refine ⟨rfl, ?_⟩
    simp [flatten_map_nil]
  · intro hpf
    have hupd : Button_Update
        ({ b with last_state := .stateDebounce, last_change_tick := t0 }) pf tf =
        ({ b with last_state := .statePressed, last_change_tick := tf },
         [button_event_t.eventPressed]) := by
      rw [update_state_debounce _ pf tf rfl, hpf, handle_debounce_accept _ tf hf]
    rw [hupd] at hlast
    rw [hlast] at happ
    rw [happ] at hmain
    rw [hmain]
    refine ⟨rfl, ?_, rfl⟩
    simp [flatten_map_nil]

/-- Witness for C3: idle active-high button, pressed at tick 0, a bouncing
not-pressed sample at tick 20 inside the window, deciding pressed sample at
tick 60. -/
theorem claim_C3_witness :
    debounce_law_spec
      { last_change_tick := 0, press_start_tick := 0, last_hold_tick := 0,
        gpio_num := 0, active_level := .activeHigh, last_state := .stateIdle,
        last_event := .eventNone, is_long_pressed_triggered := false,
        context := none, callback := some 0,
        stages := { configs := none, latches := none, count := 0 } }
      true 0 [(false, 20)] true 60 :=
  claim_C3 _ true 0 [(false, 20)] true 60 rfl (by decide) (by decide) (by decide)

/-- Conclusion of claim C5, for any poll input: latches are untouched outside
`LongPressed`; on release from `LongPressed` the first `count` entries are
cleared (others untouched); while pressed in `LongPressed` the scan is the
only writer and it only sets a latch whose threshold has been reached. -/
def latch_lifecycle_spec (b : button_t) (pin : Bool) (tick : Nat) : Prop :=
  (b.last_state ≠ .stateLongPressed →
    (Button_Update b pin tick).1.stages.latches = b.stages.latches) ∧
  (b.last_state = .stateLongPressed → is_pressed_of b.active_level pin = false →
    ∀ l, b.stages.latches = some l →
      (Button_Update b pin tick).1.stages.latches =
        some (clearLatches l b.stages.count) ∧
      (∀ j, (clearLatches l b.stages.count).getD j false =
        if j < b.stages.count then false else l.getD j false)) ∧
  (b.last_state = .stateLongPressed → is_pressed_of b.active_level pin = true →
    ∀ c l, b.stages.configs = some c → b.stages.latches = some l →
      (Button_Update b pin tick).1.stages.latches =
        some (stageScan (usub32 tick b.press_start_tick) c l b.stages.count).1 ∧
      (b.stages.count ≤ l.length → ∀ j,
        (stageScan (usub32 tick b.press_start_tick) c l b.stages.count).1.getD j false =
          (l.getD j false ||
            (decide (j < b.stages.count) &&
             decide (stage_threshold c j ≤ usub32 tick b.press_start_tick)))))

/-- Claim C5: a stage latch is set only by the stage scan in `LongPressed`
and cleared only on the `LongPressed → Idle` release transition, which clears
the whole (first `count` entries of the) array, so the next press cycle can
fire every configured stage again. -/
theorem claim_C5 (b : button_t) (pin : Bool) (tick : Nat) :
    latch_lifecycle_spec b pin tick := by
  unfold latch_lifecycle_spec
  refine ⟨?_, ?_, ?_⟩
  · intro hne
    cases hbs : b.last_state with
    | stateIdle =>
      rw [update_state_idle b pin tick hbs]
      unfold handle_state_idle
      split <;> rfl
    | stateDebounce =>
      rw [update_state_debounce b pin tick hbs]
      simp only [handle_state_debounce]
      split_ifs <;> rfl
    | statePressed =>
      rw [update_state_pressed b pin tick hbs]
      simp only [handle_state_pressed]
      split_ifs <;> rfl
    | stateLongPressed => exact absurd hbs hne
  · intro hst hp l hl
    rw [update_state_long b pin tick hst, hp, handle_long_release]
    refine ⟨by simp [hl], fun j => clearLatches_getD l b.stages.count j⟩
  · intro hst hp c l hc hl
    obtain ⟨_, _, _, _, _, hf6, _, _⟩ :=
      update_long_pressed_fields b pin tick c l hst hp hc hl
    exact ⟨hf6, fun hlen j => stageScan_fst_getD _ c l b.stages.count hlen j⟩

/-- Witness for C5: a concrete `LongPressed` button with one latch set. -/
theorem claim_C5_witness :
    latch_lifecycle_spec
      { last_change_tick := 1000, press_start_tick := 1000, last_hold_tick := 1000,
        gpio_num := 0, active_level := .activeHigh, last_state := .stateLongPressed,
        last_event := .eventNone, is_long_pressed_triggered := false,
        context := none, callback := some 0,
        stages := { configs := some [{ threshold := 100, event := .eventNone },
                                     { threshold := 300, event := .eventHold }],
                    latches := some [true, false], count := 2 } }
      false 1500 :=
  claim_C5 _ false 1500

lemma validate_stages_first_zero (c : List button_stage_config_t) (count : Nat)
    (h : stage_threshold c 0 = 0) : validate_stages (some c) count = false := by
  have h' : validate_stages (some c) count =
      (if (count == 0) = true then false
       else if (stage_threshold c 0 == 0) = true then false
       else (List.range (count - 1)).all fun i =>
         decide (stage_threshold c i < stage_threshold c (i + 1))) := rfl
  rw [h']
  by_cases h0 : (count == 0) = true
  · rw [if_pos h0]
  · rw [if_neg h0, if_pos (by simp [h])]

lemma validate_stages_nonincreasing (c : List button_stage_config_t) (count i : Nat)
    (hi : i + 1 < count) (hle : stage_threshold c (i + 1) ≤ stage_threshold c i) :
    validate_stages (some c) count = false := by
  cases hv : validate_stages (some c) count
  · rfl
  · have := validate_stages_step c count hv i hi
    omega

/-- Conclusion of claim C6: every failing call of `Button_ConfigStages`
(null button, null configs, null latches, zero count, zero first threshold,
non-strictly-increasing thresholds) returns the matching error code and
leaves the record exactly as it was; a valid call replaces exactly the stage
fields. -/
def config_stages_spec (b : button_t) (c : List button_stage_config_t)
    (l : List Bool) (cfgs : Option (List button_stage_config_t))
    (lats : Option (List Bool)) (count : Nat) : Prop :=
  (Button_ConfigStagesP none cfgs lats count = (.BUTTON_ERR_INVALID_ARG, none)) ∧
  (Button_ConfigStages b none lats count = (.BUTTON_ERR_INVALID_ARG, b)) ∧
  (Button_ConfigStages b cfgs none count = (.BUTTON_ERR_INVALID_ARG, b)) ∧
  (Button_ConfigStages b cfgs lats 0 = (.BUTTON_ERR_INVALID_ARG, b)) ∧
  (count ≠ 0 → stage_threshold c 0 = 0 →
    Button_ConfigStages b (some c) (some l) count = (.BUTTON_ERR_INVALID_STAGES, b)) ∧
  (count ≠ 0 → (∀ i, i + 1 < count →
      stage_threshold c (i + 1) ≤ stage_threshold c i →
    Button_ConfigStages b (some c) (some l) count = (.BUTTON_ERR_INVALID_STAGES, b))) ∧
  (count ≠ 0 → validate_stages (some c) count = true →
    Button_ConfigStages b (some c) (some l) count =
      (.BUTTON_OK,
       { b with stages := { configs := some c, latches := some l, count := count } }))

/-- Claim C6: `Button_ConfigStages` rejects a null button, null configs, null
latches or zero count with `INVALID_ARG`, rejects a zero first threshold or
non-strictly-increasing thresholds with `INVALID_STAGES`, and in every
failing case leaves the whole record (including any previously attached
stage configuration) unchanged; on success it replaces exactly the stage
fields with the new configs, latches and count. -/
theorem claim_C6 (b : button_t) (c : List button_stage_config_t)
    (l : List Bool) (cfgs : Option (List button_stage_config_t))
    (lats : Option (List Bool)) (count : Nat) :
    config_stages_spec b c l cfgs lats count := by
  unfold config_stages_spec
  have hnz : ∀ n : Nat, n ≠ 0 → ((some c).isNone || (some l).isNone || (n == 0)) = false := by
    intro n hn
    simp [hn]
  refine ⟨rfl, rfl, ?_, ?_, ?_, ?_, ?_⟩
  · cases cfgs <;> rfl
  · cases cfgs <;> cases lats <;> rfl
  · intro hcount h0
    unfold Button_ConfigStages
    rw [if_neg (by rw [hnz count hcount]; simp),
      if_pos (by rw [validate_stages_first_zero c count h0]; rfl)]
  · intro hcount i hi hle
    unfold Button_ConfigStages
    rw [if_neg (by rw [hnz count hcount]; simp),
      if_pos (by rw [validate_stages_nonincreasing c count i hi hle]; rfl)]
  · intro hcount hval
    unfold Button_ConfigStages
    rw [if_neg (by rw [hnz count hcount]; simp),
      if_neg (by rw [hval]; simp)]

/-- Witness for C6: a button with a previously attached configuration, and
the spec's rejected inputs `[100, 100]`, `[0, 200]` and a zero count. -/
theorem claim_C6_witness :
    config_stages_spec
      { last_change_tick := 0, press_start_tick := 0, last_hold_tick := 0,
        gpio_num := 7, active_level := .activeLow, last_state := .stateIdle,
        last_event := .eventNone, is_long_pressed_triggered := false,
        context := none, callback := none,
        stages := { configs := some [{ threshold := 500, event := .eventNone }],
                    latches := some [false], count := 1 } }
      [{ threshold := 100, event := .eventNone },
       { threshold := 100, event := .eventNone }]
      [false, false]
      (some [{ threshold := 0, event := .eventNone },
             { threshold := 200, event := .eventNone }])
      (some [false, false]) 2 :=
  claim_C6 _ _ _ _ _ 2

/-- Conclusion of claim C9: `Button_ConfigStages` passes the caller's latch
array through untouched and rewrites nothing but the stage-manager fields;
a latch entry that is already `true` keeps its stage from firing for the
whole pressed run, and only the release-time clear makes every stage
eligible again. -/
def config_frame_spec (b : button_t) (c : List button_stage_config_t)
    (l : List Bool) (count : Nat) (pin : Bool) (ps : Nat)
    (ticks : List Nat) (i : Nat) : Prop :=
  ((Button_ConfigStages b (some c) (some l) count).2.stages.latches = some l ∨
    (Button_ConfigStages b (some c) (some l) count).2 = b) ∧
  ((Button_ConfigStages b (some c) (some l) count).2 = b ∨
    (Button_ConfigStages b (some c) (some l) count).2 =
      { b with stages := { configs := some c, latches := some l, count := count } }) ∧
  (l.getD i false = true →
    (∀ k, i ∉ (firedTrace c count ps l ticks).getD k []) ∧
    (∀ t2, i ∉ firedIdx t2 c l count)) ∧
  (∀ (b2 : button_t) (tick : Nat), b2.last_state = .stateLongPressed →
    is_pressed_of b2.active_level pin = true →
    b2.stages.configs = some c → b2.stages.latches = some l →
    b2.stages.count = count →
    (Button_Update b2 pin tick).2 =
      (firedIdx (usub32 tick b2.press_start_tick) c l count).map (stage_event c) ++
        (if decide (usub32 tick b2.press_start_tick ≥ BUTTON_LONG_PRESS_TICKS) &&
            decide (usub32 tick b2.last_hold_tick ≥ BUTTON_HOLD_TICKS)
         then [button_event_t.eventHold] else [])) ∧
  (∀ j, j < count → (clearLatches l count).getD j false = false)

/-- Claim C9: `Button_ConfigStages` writes only the button's stage-manager
fields and never the caller-supplied latch array itself; consequently a latch
entry that is already `true` when configuration is attached suppresses that
stage's event for the press cycle, until the release-from-`LongPressed`
clear makes the whole array fire-able again. -/
theorem claim_C9 (b : button_t) (c : List button_stage_config_t)
    (l : List Bool) (count : Nat) (pin : Bool) (ps : Nat)
    (ticks : List Nat) (i : Nat) :
    config_frame_spec b c l count pin ps ticks i := by
  unfold config_frame_spec
  refine ⟨?_, ?_, ?_, ?_, ?_⟩
  · unfold Button_ConfigStages
    by_cases h1 : ((some c).isNone || (some l).isNone || (count == 0)) = true
    · rw [if_pos h1]
      exact Or.inr rfl
    · rw [if_neg h1]
      by_cases h2 : (!validate_stages (some c) count) = true
      · rw [if_pos h2]
        exact Or.inr rfl
      · rw [if_neg h2]
        exact Or.inl rfl
  · unfold Button_ConfigStages
    by_cases h1 : ((some c).isNone || (some l).isNone || (count == 0)) = true
    · rw [if_pos h1]
      exact Or.inl rfl
    · rw [if_neg h1]
      by_cases h2 : (!validate_stages (some c) count) = true
      · rw [if_pos h2]
        exact Or.inl rfl
      · rw [if_neg h2]
        exact Or.inr rfl
  · intro hi
    refine ⟨fun k => firedTrace_latch_true c count ps ticks l i hi k, fun t2 hmem => ?_⟩
    have := (firedIdx_mem t2 c l count i).mp hmem
    rw [hi] at this
    exact absurd this.2.2 (by simp)
  · intro b2 tick hst hp hc hl hcnt
    obtain ⟨_, _, _, _, _, _, hf7, _⟩ :=
      update_long_pressed_fields b2 pin tick c l hst hp hc hl
    rw [hcnt] at hf7
    exact hf7
  · intro j hj
    rw [clearLatches_getD, if_pos hj]

/-- Witness for C9: a previously configured record, fresh stage arrays with
latch 0 pre-set, a pressed run at two ticks. -/
theorem claim_C9_witness :
    config_frame_spec
      { last_change_tick := 0, press_start_tick := 0, last_hold_tick := 0,
        gpio_num := 2, active_level := .activeHigh, last_state := .stateIdle,
        last_event := .eventNone, is_long_pressed_triggered := false,
        context := none, callback := some 4,
        stages := { configs := none, latches := none, count := 0 } }
      [{ threshold := 100, event := .eventNone },
       { threshold := 300, event := .eventSuperLongPressed }]
      [true, false] 2 true 1000 [1150, 1400] 0 :=
  claim_C9 _ _ _ 2 true 1000 [1150, 1400] 0

/-- The stage-manager invariant maintained by the public API: whenever a
stage count is attached, both arrays are attached and the thresholds passed
validation. -/
def StagesInv (b : button_t) : Prop :=
  b.stages.count > 0 →
    b.stages.configs.isSome = true ∧ b.stages.latches.isSome = true ∧
    validate_stages b.stages.configs b.stages.count = true

lemma update_stages_nonlong (b : button_t) (pin : Bool) (tick : Nat)
    (hne : b.last_state ≠ .stateLongPressed) :
    (Button_Update b pin tick).1.stages = b.stages := by
  cases hbs : b.last_state with
  | stateIdle =>
    rw [update_state_idle b pin tick hbs]
    unfold handle_state_idle
    split <;> rfl
  | stateDebounce =>
    rw [update_state_debounce b pin tick hbs]
    simp only [handle_state_debounce]
    split_ifs <;> rfl
  | statePressed =>
    rw [update_state_pressed b pin tick hbs]
    simp only [handle_state_pressed]
    split_ifs <;> rfl
  | stateLongPressed => exact absurd hbs hne

lemma update_stages_long_facts (b : button_t) (pin : Bool) (tick : Nat)
    (hst : b.last_state = .stateLongPressed) :
    (Button_Update b pin tick).1.stages.configs = b.stages.configs ∧
    (Button_Update b pin tick).1.stages.count = b.stages.count ∧
    (Button_Update b pin tick).1.stages.latches.isSome = b.stages.latches.isSome := by
  rw [update_state_long b pin tick hst]
  cases hpv : is_pressed_of b.active_level pin
  · rw [handle_long_release]
    refine ⟨rfl, rfl, ?_⟩
    cases hl : b.stages.latches <;> simp [hl]
  · cases hc : b.stages.configs with
    | none =>
      rw [handle_long_pressed_nocfg b tick (Or.inl hc)]
      split_ifs <;> exact ⟨hc, rfl, rfl⟩
    | some c =>
      cases hl : b.stages.latches with
      | none =>
        rw [handle_long_pressed_nocfg b tick (Or.inr hl)]
        split_ifs <;> exact ⟨hc, rfl, congrArg Option.isSome hl⟩
      | some l =>
        obtain ⟨_, _, _, hf4, hf5, hf6, _, _⟩ :=
          update_long_pressed_fields b pin tick c l hst hpv hc hl
        rw [update_state_long b pin tick hst, hpv] at hf4 hf5 hf6
        exact ⟨hf4, hf5, by rw [hf6]; rfl⟩

/-- Conclusion of claim C10: `Button_Init` establishes the stage-manager
invariant with zero stages; every public operation preserves it; and with a
zero count the stage scan and the latch clear do nothing, so a button with
zero stages polls correctly. -/
def stages_invariant_spec (g now : Nat) (level : button_active_level_t)
    (b : button_t) (cfgs : Option (List button_stage_config_t))
    (lats : Option (List Bool)) (count : Nat) (pin : Bool) (tick : Nat)
    (cb ctx : Option Nat) : Prop :=
  StagesInv (Button_Init g level now) ∧
  (Button_Init g level now).stages.count = 0 ∧
  (StagesInv b → StagesInv (Button_ConfigStages b cfgs lats count).2) ∧
  (StagesInv b → StagesInv (Button_Update b pin tick).1) ∧
  (StagesInv b → StagesInv (Button_RegisterHandler b cb ctx).2) ∧
  (StagesInv b → StagesInv (Button_UnregisterHandler b).2) ∧
  StagesInv (Button_Deinit b).2 ∧
  (b.stages.count = 0 →
    (Button_Update b pin tick).1.stages.latches = b.stages.latches ∧
    (b.last_state = .stateLongPressed → is_pressed_of b.active_level pin = true →
      (Button_Update b pin tick).2 = [] ∨
      (Button_Update b pin tick).2 = [button_event_t.eventHold]))

/-- Claim C10: buttons built by `Button_Init` and mutated only through the
public API satisfy: a positive stage count implies both arrays attached and
validated (strictly increasing, nonzero first threshold); with a zero count
the stage scan and latch-clearing loops do nothing, so a stage-less button
operates correctly. -/
theorem claim_C10 (g now : Nat) (level : button_active_level_t)
    (b : button_t) (cfgs : Option (List button_stage_config_t))
    (lats : Option (List Bool)) (count : Nat) (pin : Bool) (tick : Nat)
    (cb ctx : Option Nat) :
    stages_invariant_spec g now level b cfgs lats count pin tick cb ctx := by
  unfold stages_invariant_spec
  refine ⟨fun h => absurd h (by simp [Button_Init]), rfl, ?_, ?_, fun h => h, fun h => h,
    fun h => absurd h (by simp [Button_Deinit]), ?_⟩
  · intro hinv
    unfold Button_ConfigStages
    by_cases h1 : (cfgs.isNone || lats.isNone || (count == 0)) = true
    · rw [if_pos h1]
      exact hinv
    · rw [if_neg h1]
      by_cases h2 : (!validate_stages cfgs count) = true
      · rw [if_pos h2]
        exact hinv
      · rw [if_neg h2]
        intro _
        simp only [Bool.or_eq_true, not_or] at h1
        have hv : validate_stages cfgs count = true := by
          cases hvv : validate_stages cfgs count
          · rw [hvv] at h2
            simp at h2
          · rfl
        refine ⟨?_, ?_, hv⟩
        · cases cfgs
          · simp at h1
          · rfl
        · cases lats
          · simp at h1
          · rfl
  · intro hinv
    by_cases hne : b.last_state = .stateLongPressed
    · obtain ⟨hc, hcnt, hl⟩ := update_stages_long_facts b pin tick hne
      intro hpos
      rw [hcnt] at hpos
      obtain ⟨i1, i2, i3⟩ := hinv hpos
      exact ⟨by rw [hc]; exact i1, by rw [hl]; exact i2, by rw [hc, hcnt]; exact i3⟩
    · intro hpos
      rw [update_stages_nonlong b pin tick hne] at hpos ⊢
      exact hinv hpos
  · intro hcnt0
    constructor
    · by_cases hne : b.last_state = .stateLongPressed
      · cases hpv : is_pressed_of b.active_level pin
        · rw [update_state_long b pin tick hne, hpv, handle_long_release]
          cases hl : b.stages.latches
          · rfl
          · dsimp only
            rw [hcnt0, clearLatches_zero]
        · cases hc : b.stages.configs with
          | none =>
            rw [update_state_long b pin tick hne, hpv,
              handle_long_pressed_nocfg b tick (Or.inl hc)]
            split_ifs <;> rfl
          | some c =>
            cases hl : b.stages.latches with
            | none =>
              rw [update_state_long b pin tick hne, hpv,
                handle_long_pressed_nocfg b tick (Or.inr hl)]
              split_ifs <;> exact hl
            | some l =>
              obtain ⟨_, _, _, _, _, hf6, _, _⟩ :=
                update_long_pressed_fields b pin tick c l hne hpv hc hl
              rw [hf6, hcnt0, stageScan_zero]
      · rw [update_stages_nonlong b pin tick hne]
    · intro hst hp
      cases hc : b.stages.configs with
      | none =>
        rw [update_state_long b pin tick hst, hp,
          handle_long_pressed_nocfg b tick (Or.inl hc)]
        split_ifs
        · exact Or.inr rfl
        · exact Or.inl rfl
      | some c =>
        cases hl : b.stages.latches with
        | none =>
          rw [update_state_long b pin tick hst, hp,
            handle_long_pressed_nocfg b tick (Or.inr hl)]
          split_ifs
          · exact Or.inr rfl
          · exact Or.inl rfl
        | some l =>
          obtain ⟨_, _, _, _, _, _, hf7, _⟩ :=
            update_long_pressed_fields b pin tick c l hst hp hc hl
          rw [hcnt0] at hf7
          rw [hf7]
          simp only [firedIdx, List.range_zero, List.filter_nil, List.map_nil,
            List.nil_append]
          split_ifs
          · exact Or.inr rfl
          · exact Or.inl rfl

/-- Witness for C10: concrete init parameters, a configured button, and a
valid reconfiguration input. -/
theorem claim_C10_witness :
    stages_invariant_spec 4 77 .activeLow
      { last_change_tick := 0, press_start_tick := 0, last_hold_tick := 0,
        gpio_num := 4, active_level := .activeLow, last_state := .stateLongPressed,
        last_event := .eventNone, is_long_pressed_triggered := false,
        context := none, callback := some 0,
        stages := { configs := none, latches := none, count := 0 } }
      (some [{ threshold := 100, event := .eventNone }]) (some [false]) 1
      false 2000 (some 9) none :=
  claim_C10 4 77 .activeLow _ _ _ 1 false 2000 (some 9) none
